import Mathlib

/-!
Verification of the research_agent frontend orchestration client.

This file gives a shallow embedding of the status-polling, batch, live-session
and error-handling logic of the repository's frontend
(`src/frontend/src/lib/api.ts`, `src/frontend/src/components/StatusDisplay.tsx`,
`src/frontend/src/components/BatchLiveResearch.tsx`,
`src/frontend/src/components/ProgressTrackng.tsx`) together with the data
declarations the frontend imports from `lib/types.ts` (present in the
snapshot as `src/unnamed/part_004`). The aggregation computation of the
backend is not part of the snapshot; the one place that needs it is modelled
from the specification, faithful to the in-source result type, and marked as
such.
-/

namespace ResearchAgent

/-- The `JobStatus` union type of `lib/types.ts` (`src/unnamed/part_004`
line 3): exactly the four values
`"queued" | "in_progress" | "completed" | "failed"`. -/
inductive JobStatus where
  | queued
  | in_progress
  | completed
  | failed
deriving DecidableEq, Repr

/-- The list of all job status values, in declaration order. -/
def jobStatusValues : List JobStatus :=
  [.queued, .in_progress, .completed, .failed]

/-- The string literal of each status value, as written in the union type
(`part_004` line 3). -/
def statusString (s : JobStatus) : String :=
  match s with
  | .queued => "queued"
  | .in_progress => "in_progress"
  | .completed => "completed"
  | .failed => "failed"

/-- The member strings of the `JobStatus` union (`part_004` line 3), in
declaration order. -/
def jobStatusStrings : List String :=
  ["queued", "in_progress", "completed", "failed"]

/-- The terminal job statuses of the repository: `completed` and `failed`,
the values from which no code moves a job on (`StatusDisplay.tsx` line 34
stops polling exactly there; the `JobStatus` type has no `cancelled`
value). -/
def isTerminal (s : JobStatus) : Bool :=
  match s with
  | .completed => true
  | .failed => true
  | _ => false

/-- JavaScript `a || b` over an optional string field: a missing field and an
empty string are both falsy, so the fallback is used for both. -/
def jsOrStr (a : Option String) (b : String) : String :=
  match a with
  | some s => if s = "" then b else s
  | none => b

/-- The payload of `getJobStatus` (`api.ts` line 64, spec §6 "Get status"):
`{status, progress?, error_message?}`. -/
structure JobStatusResponse where
  status : JobStatus
  progress : Option ℚ
  error_message : Option String

/-- The React state of `StatusDisplay` (`StatusDisplay.tsx` lines 29-31):
`status`, `progress` (a percentage) and `error`. -/
structure DisplayState where
  status : JobStatus
  progress : ℚ
  error : Option String
deriving DecidableEq

/-- The guard of the polling effect (`StatusDisplay.tsx` lines 33-38): the
effect returns without scheduling an interval exactly when the current status
is `completed` or `failed`; any other status schedules a 5-second poll. -/
def pollsScheduled (s : JobStatus) : Bool :=
  !(s == .completed || s == .failed)

/-- Observable side effects of one poll tick of `StatusDisplay`, in the order
the code performs them. -/
inductive PollEvent where
  | completionCallback (jobId : String)
  | failureCallback (jobId : String) (msg : String)
  | clearPollInterval
deriving DecidableEq, Repr

/-- The default failure message of `StatusDisplay.tsx` line 49. -/
def unknownFailureMsg (jobId : String) : String :=
  "Job " ++ jobId ++ " failed with an unknown error."

/-- One successful poll tick of the `StatusDisplay` interval
(`StatusDisplay.tsx` lines 40-53): store the polled status, recompute the
progress percentage (line 42), reset the error, and on a `completed` or
`failed` response invoke the corresponding callback and then clear the
interval. Returns the new component state and the emitted events in order. -/
def pollTick (jobId : String) (st : DisplayState) (r : JobStatusResponse) :
    DisplayState × List PollEvent :=
  let newProgress : ℚ :=
    match r.progress with
    | some p => p * 100
    | none => if r.status == .completed then 100 else st.progress
  let base : DisplayState := { status := r.status, progress := newProgress, error := none }
  match r.status with
  | .completed =>
      (base, [.completionCallback jobId, .clearPollInterval])
  | .failed =>
      let msg := jsOrStr r.error_message (unknownFailureMsg jobId)
      ({ base with error := some msg },
       [.failureCallback jobId msg, .clearPollInterval])
  | _ => (base, [])

/-- The polling transition system of `StatusDisplay`: a poll tick can change
the displayed state only while the effect keeps an interval scheduled, i.e.
while `pollsScheduled` holds of the currently displayed status. -/
def pollStep (jobId : String) (st : DisplayState) (r : JobStatusResponse)
    (st' : DisplayState) : Prop :=
  pollsScheduled st.status = true ∧ st' = (pollTick jobId st r).1

/-- The field names of `BatchResearchResult` (`lib/types.ts`,
`src/unnamed/part_004` lines 89-97), in declaration order: the aggregate
carries a completed count (`completed_topics`) and a failed count
(`failed_topics`), and no cancelled bucket of any kind. -/
def batchResultFields : List String :=
  ["batch_id", "total_topics", "completed_topics", "failed_topics",
   "results", "overall_confidence", "processing_time_seconds"]

/-- Modelled from the spec: the number of batch members with the given
status. The counting itself happens in the backend, which is not part of the
snapshot; spec §4.2 has `aggregate` report batch-level counts of
completed/failed members, matching the in-source `BatchResearchResult`
shape. -/
def countStatus (s : JobStatus) (members : List JobStatus) : Nat :=
  (members.filter (fun x => x == s)).length

/-- An entry of the live-session message list as the component stores it
(`BatchLiveResearch.tsx` lines 430-433 and 462-467): sender, content and the
timestamp attached at append time. -/
structure LogEntry where
  sender : String
  content : String
  timestamp : String
deriving DecidableEq, Repr

/-- Data arriving over the live-research WebSocket, delivered to the
`onMessage` handler (`BatchLiveResearch.tsx` lines 429-434). -/
structure IncomingData where
  sender : String
  content : String
deriving DecidableEq, Repr

/-- The two state updates that touch the message list of
`LiveResearchSessionComponent`: a WebSocket message arriving
(`BatchLiveResearch.tsx` lines 430-433) and the user sending a message
(lines 462-467). No other code writes `messages`. -/
inductive MsgUpdate where
  | wsReceive (data : IncomingData) (now : String)
  | userSend (content : String) (now : String)
deriving DecidableEq, Repr

/-- The entry appended by an update: the WebSocket handler spreads the
incoming data and stamps the arrival time; `sendMessage` appends a
`sender = "user"` entry with the current text. -/
def entryOf (u : MsgUpdate) : LogEntry :=
  match u with
  | .wsReceive data now =>
      { sender := data.sender, content := data.content, timestamp := now }
  | .userSend content now =>
      { sender := "user", content := content, timestamp := now }

/-- Apply one message-list update: both updates are of the form
`setMessages(prev => [...prev, entry])`. -/
def applyUpdate (log : List LogEntry) (u : MsgUpdate) : List LogEntry :=
  log ++ [entryOf u]

/-- The requests a batch poll tick can issue. -/
inductive BatchAction where
  | statusPoll
  | resultsFetch
deriving DecidableEq, Repr

/-- The payload of `getBatchResearchStatus` (`api.ts` lines 130-136). -/
structure BatchStatusResponse where
  batch_id : String
  status : String
  progress : ℚ
  completed_topics : List String
  failed_topics : List String

/-- The requests issued by one `pollStatus` tick of `BatchResearchForm`
(`BatchLiveResearch.tsx` lines 126-138): it always issues the status poll,
and issues the results fetch exactly when the polled status is
`"completed"`. -/
def pollStatusActions (resp : BatchStatusResponse) : List BatchAction :=
  [.statusPoll] ++ (if resp.status = "completed" then [.resultsFetch] else [])

/-- The fields of the JSON error body that `handleApiResponse` reads
(`api.ts` lines 39-42). The success value of the model is the whole parsed
body. -/
structure JsonBody where
  detail : Option String
  message : Option String
  code : Option String
deriving DecidableEq

/-- An HTTP response as `handleApiResponse` observes it: the `ok` flag, the
numeric status, the status text, and the result of `response.json()`
(`none` when the body is not parseable JSON). -/
structure HttpResponse where
  ok : Bool
  status : Nat
  statusText : String
  jsonBody : Option JsonBody

/-- The `ApiError` raised by `api.ts` lines 20-30: message, numeric HTTP
status and error code. -/
structure ApiError where
  message : String
  status : Nat
  code : String
deriving DecidableEq

/-- How a call through `handleApiResponse` can fail: with a thrown
`ApiError`, or — for an `ok` response whose body is not JSON — with the
rejection of `response.json()` itself. -/
inductive ApiFailure where
  | api (e : ApiError)
  | jsonParseFailure
deriving DecidableEq

/-- The default error message of `api.ts` line 34. -/
def apiDefaultMessage (r : HttpResponse) : String :=
  "API Error: " ++ toString r.status ++ " " ++ r.statusText

/-- `handleApiResponse` (`api.ts` lines 32-50): an `ok` response resolves to
its parsed JSON body; a non-`ok` response throws an `ApiError` carrying the
HTTP status, with message `body.detail || body.message || default` and code
`body.code || "UNKNOWN_ERROR"` (defaults throughout when the body cannot be
parsed). -/
def handleApiResponse (r : HttpResponse) : Except ApiFailure JsonBody :=
  if r.ok then
    match r.jsonBody with
    | some b => .ok b
    | none => .error .jsonParseFailure
  else
    match r.jsonBody with
    | some b =>
        .error (.api
          { message := jsOrStr b.detail (jsOrStr b.message (apiDefaultMessage r))
            status := r.status
            code := jsOrStr b.code "UNKNOWN_ERROR" })
    | none =>
        .error (.api
          { message := apiDefaultMessage r
            status := r.status
            code := "UNKNOWN_ERROR" })

/-- The expected message of a thrown `ApiError`, per the fallback chain of
`api.ts` lines 34-40. -/
def expectedErrorMessage (r : HttpResponse) : String :=
  match r.jsonBody with
  | some b => jsOrStr b.detail (jsOrStr b.message (apiDefaultMessage r))
  | none => apiDefaultMessage r

/-- The declared return type of `cancelJob` (`api.ts` line 79):
`{ success: boolean; message: string }`. -/
structure CancelJobResponse where
  success : Bool
  message : String
deriving DecidableEq, Repr

/-- The field names of `cancelJob`'s declared response record, in declaration
order (`api.ts` line 79). -/
def cancelJobResponseFields : List String :=
  ["success", "message"]

/-- The `status` union of `LiveResearchSession` (`lib/types.ts`,
`src/unnamed/part_004` line 103): exactly the three values
`"active" | "ended" | "error"`. The field is named `status`, and the third
value is `error`. -/
inductive SessionStatus where
  | active
  | ended
  | error
deriving DecidableEq, Repr

/-- The list of all session status values, in declaration order. -/
def sessionStatusValues : List SessionStatus :=
  [.active, .ended, .error]

/-- The string literal of each session status value, as written in the union
(`part_004` line 103). -/
def sessionStatusString (s : SessionStatus) : String :=
  match s with
  | .active => "active"
  | .ended => "ended"
  | .error => "error"

/-- The member strings of the session `status` union (`part_004` line 103),
in declaration order. -/
def sessionStatusStrings : List String :=
  ["active", "ended", "error"]

/-- The `LiveResearchSession` record of `lib/types.ts`
(`src/unnamed/part_004` lines 100-107). -/
structure LiveResearchSession where
  session_id : String
  topic : String
  status : SessionStatus
  started_at : String
  modalities : List String
  participants : Option Nat
deriving DecidableEq, Repr

/-- An academic reference as `ResearchProgress` reads it
(`ProgressTrackng.tsx` line 8): only the optional `confidence_score`
matters. -/
structure Reference where
  confidence_score : Option ℚ
deriving DecidableEq

/-- A research result as `ResearchProgress` reads it: the optional
`references` array. -/
structure ResearchResult where
  references : Option (List Reference)
deriving DecidableEq

/-- `ref.confidence_score || 0` (`ProgressTrackng.tsx` line 8): a missing
score counts as 0 (and a present score of 0 stays 0 under JS truthiness). -/
def refConfidence (r : Reference) : ℚ :=
  match r.confidence_score with
  | some c => c
  | none => 0

/-- `resultData.references?.length || 0` (`ProgressTrackng.tsx` line 7). -/
def totalSources (rd : ResearchResult) : Nat :=
  match rd.references with
  | some l => l.length
  | none => 0

/-- The count of references with confidence strictly above 0.8
(`ProgressTrackng.tsx` line 8). -/
def highConfidenceSources (rd : ResearchResult) : Nat :=
  match rd.references with
  | some l => (l.filter (fun r => (0.8 : ℚ) < refConfidence r)).length
  | none => 0

/-- The research-quality percentage (`ProgressTrackng.tsx` line 9):
`totalSources > 0 ? (highConfidenceSources / totalSources) * 100 : 0`. -/
def progressPercentage (rd : ResearchResult) : ℚ :=
  if 0 < totalSources rd then
    ((highConfidenceSources rd : ℚ) / (totalSources rd : ℚ)) * 100
  else 0

/-- The live-session summary as the component reads it
(`BatchLiveResearch.tsx` lines 603-621). -/
structure LiveSummary where
  topic : String
  duration_minutes : ℚ
  total_interactions : Nat
deriving DecidableEq

/-- The client state that `endSession` touches (`BatchLiveResearch.tsx`
lines 399-409 and 526-543): the current session, whether `wsRef.current` is
non-null, and the displayed summary. -/
structure SessionComponentState where
  session : Option LiveResearchSession
  wsConnected : Bool
  summary : Option LiveSummary
deriving DecidableEq

/-- `endSession` (`BatchLiveResearch.tsx` lines 526-543) as a step on the
component state, given the outcome of `endLiveResearchSession`: with no
session it returns at once; on rejection the catch block only shows a toast,
leaving all state unchanged; on success it stores the summary, closes the
WebSocket when one is connected, clears the reference and clears the session.
The boolean reports whether `ws.close()` was called. -/
def endSessionStep (st : SessionComponentState)
    (apiResult : Except ApiError LiveSummary) :
    SessionComponentState × Bool :=
  match st.session with
  | none => (st, false)
  | some _ =>
      match apiResult with
      | .error _ => (st, false)
      | .ok sum =>
          ({ session := none, wsConnected := false, summary := some sum },
           st.wsConnected)

end ResearchAgent

namespace ResearchAgent

/-- Helper for C4: folding the two message-list updates grows the list by one
entry per update. -/
theorem applyUpdate_foldl_length (us : List MsgUpdate) :
    ∀ log : List LogEntry, (us.foldl applyUpdate log).length = log.length + us.length := by
  induction us with
  | nil => intro log; simp
  | cons u tl ih =>
      intro log
      simp [List.foldl_cons, ih, applyUpdate]
      omega

/-- Helper for C5: one poll tick issues the results fetch exactly when the
polled batch status is `"completed"`. -/
theorem resultsFetch_iff_completed (resp : BatchStatusResponse) :
    BatchAction.resultsFetch ∈ pollStatusActions resp ↔ resp.status = "completed" := by
  by_cases hc : resp.status = "completed" <;> simp [pollStatusActions, hc]

/-- Helper for C9: at most all references are high-confidence. -/
theorem highConfidenceSources_le (rd : ResearchResult) :
    highConfidenceSources rd ≤ totalSources rd := by
  rcases hr : rd.references with _ | l
  · simp [highConfidenceSources, totalSources, hr]
  · simpa [highConfidenceSources, totalSources, hr] using List.length_filter_le _ l

/-- C2 counterexample: the `JobStatus` union declared in `lib/types.ts`
(`src/unnamed/part_004` line 3) has exactly four members, none of which is
`cancelled`, so it is false that a Job's status ranges over five values with
`cancelled` among them. -/
theorem jobStatus_no_cancelled_value :
    jobStatusStrings.contains "cancelled" = false ∧
    jobStatusStrings = ["queued", "in_progress", "completed", "failed"] :=
  ⟨rfl, rfl⟩

/-- C2 (amended): a Job's status ranges over exactly the four values
`queued`, `in_progress`, `completed` and `failed`: every `JobStatus` value
(the type every job operation produces and accepts) is one of the four, the
four are pairwise distinct, and they spell exactly the member strings of the
union type — there is no `cancelled` status. -/
theorem jobStatus_exactly_four_values :
    (∀ s : JobStatus, s ∈ jobStatusValues) ∧
    jobStatusValues.Nodup ∧
    jobStatusValues.length = 4 ∧
    jobStatusValues.map statusString = jobStatusStrings := by
  refine ⟨fun s => ?_, by decide, rfl, rfl⟩
  cases s <;> simp [jobStatusValues]

/-- C8 counterexample: the session union declared in `lib/types.ts`
(`src/unnamed/part_004` line 103) is `"active" | "ended" | "error"`, on a
field named `status`; `errored` is not one of its members, so it is false
that a LiveSession's state ranges over `active`, `ended` and `errored`. -/
theorem sessionStatus_no_errored_value :
    sessionStatusStrings.contains "errored" = false ∧
    sessionStatusStrings = ["active", "ended", "error"] :=
  ⟨rfl, rfl⟩

/-- C8 (amended): a LiveResearchSession's `status` field ranges over exactly
the three values `active`, `ended` and `error` (the third value is `error`,
not `errored`): every `SessionStatus` value is one of the three, the three
are pairwise distinct, and they spell exactly the member strings of the
union; every session returned by `startLiveResearchSession` or observed
thereafter carries one of them by its type. -/
theorem sessionStatus_exactly_three_values :
    (∀ s : SessionStatus, s = .active ∨ s = .ended ∨ s = .error) ∧
    sessionStatusValues.Nodup ∧
    sessionStatusValues.length = 3 ∧
    sessionStatusValues.map sessionStatusString = sessionStatusStrings := by
  refine ⟨fun s => ?_, by decide, rfl, rfl⟩
  cases s <;> simp

/-- C7 counterexample: the declared response record of `cancelJob`
(`api.ts` line 79) has no field named `accepted` — its fields are `success`
and `message` — so the cancel-job operation does not return a record of the
shape `{accepted: bool}`. -/
theorem cancelJob_no_accepted_field :
    cancelJobResponseFields.contains "accepted" = false ∧
    cancelJobResponseFields = ["success", "message"] :=
  ⟨rfl, rfl⟩

/-- C7 (amended): the cancel-job operation returns a record of the shape
`{success: bool, message: string}`; its boolean `success` field (not a field
named `accepted`) indicates whether the cancellation was accepted, and every
such record is determined by those two fields. -/
theorem cancelJob_response_shape :
    cancelJobResponseFields = ["success", "message"] ∧
    cancelJobResponseFields.length = 2 ∧
    cancelJobResponseFields.contains "success" = true ∧
    cancelJobResponseFields.contains "accepted" = false ∧
    (∀ r : CancelJobResponse, r = { success := r.success, message := r.message }) :=
  ⟨rfl, rfl, rfl, rfl, fun _ => rfl⟩

/-- C4: every update to the live-session message list appends exactly one
entry at the end: the updated list is the old list with one entry appended,
so the length grows by one, the existing entries are preserved unchanged as a
prefix, and after K updates from the empty list the list has K entries in
arrival order. -/
theorem messageLog_append_only :
    (∀ (log : List LogEntry) (u : MsgUpdate),
        applyUpdate log u = log ++ [entryOf u]) ∧
    (∀ (log : List LogEntry) (u : MsgUpdate),
        (applyUpdate log u).length = log.length + 1) ∧
    (∀ (log : List LogEntry) (u : MsgUpdate),
        (applyUpdate log u).take log.length = log) ∧
    (∀ us : List MsgUpdate, (us.foldl applyUpdate []).length = us.length) := by
  refine ⟨fun log u => rfl, fun log u => by simp [applyUpdate], ?_, ?_⟩
  · intro log u
    simp [applyUpdate]
  · intro us
    simpa using applyUpdate_foldl_length us []

/-- C5: the batch client fetches aggregate results only after a status poll
reports `"completed"`: each poll tick always issues the status poll, issues
the results fetch exactly when that tick's status response is `"completed"`,
and over any sequence of poll responses a results fetch occurs iff some
response reported `"completed"`. -/
theorem batchResults_only_after_completed :
    ∀ resp : BatchStatusResponse,
      (BatchAction.statusPoll ∈ pollStatusActions resp) ∧
      (BatchAction.resultsFetch ∈ pollStatusActions resp ↔ resp.status = "completed") ∧
      (∀ resps : List BatchStatusResponse,
        BatchAction.resultsFetch ∈ (resps.map pollStatusActions).flatten ↔
          ∃ q ∈ resps, q.status = "completed") := by
  intro resp
  refine ⟨by simp [pollStatusActions], resultsFetch_iff_completed resp, ?_⟩
  intro resps
  simp only [List.mem_flatten, List.mem_map]
  constructor
  · rintro ⟨acts, ⟨q, hq, rfl⟩, hmem⟩
    exact ⟨q, hq, (resultsFetch_iff_completed q).1 hmem⟩
  · rintro ⟨q, hq, hcomp⟩
    exact ⟨pollStatusActions q, ⟨q, hq, rfl⟩, (resultsFetch_iff_completed q).2 hcomp⟩

end ResearchAgent

namespace ResearchAgent

/-- A poll response reporting `completed` (used by the C1 witness). -/
def completedResponse : JobStatusResponse :=
  { status := .completed, progress := some 1, error_message := none }

/-- C1: once the observed status reaches a terminal value it never changes
again. The terminal values of the code's `JobStatus` are exactly `completed`
and `failed`, and the polling effect schedules no poll exactly when the
current status is one of them; a poll returning `completed` invokes the
completion callback and then clears the interval; a poll returning `failed`
invokes the failure callback and then clears the interval; and no poll step
can change a displayed `completed` or `failed` status. -/
theorem statusDisplay_completed_failed_sticky :
    (∀ s : JobStatus, isTerminal s = true ↔ (s = .completed ∨ s = .failed)) ∧
    (∀ s : JobStatus, pollsScheduled s = false ↔ (s = .completed ∨ s = .failed)) ∧
    (∀ jobId st r, r.status = .completed →
        (pollTick jobId st r).2 = [.completionCallback jobId, .clearPollInterval] ∧
        (pollTick jobId st r).1.status = .completed) ∧
    (∀ jobId st r, r.status = .failed →
        ∃ m, (pollTick jobId st r).2 = [.failureCallback jobId m, .clearPollInterval] ∧
          (pollTick jobId st r).1.status = .failed) ∧
    (∀ jobId st r st', st.status = .completed ∨ st.status = .failed →
        ¬ pollStep jobId st r st') := by
  refine ⟨fun s => ?_, fun s => ?_, ?_, ?_, ?_⟩
  · cases s <;> decide
  · cases s <;> decide
  · intro jobId st r h
    rcases r with ⟨rs, rp, re⟩
    cases h
    constructor <;> simp [pollTick]
  · intro jobId st r h
    rcases r with ⟨rs, rp, re⟩
    cases h
    exact ⟨jsOrStr re (unknownFailureMsg jobId), by simp [pollTick], by simp [pollTick]⟩
  · rintro jobId st r st' h ⟨hp, _⟩
    rcases h with h | h <;> rw [h] at hp <;> exact absurd hp (by decide)

/-- C1 witness: a displayed `completed` status admits no poll step. -/
theorem statusDisplay_completed_failed_sticky_witness :
    ({ status := .completed, progress := 100, error := none } : DisplayState).status =
        JobStatus.completed ∧
    ¬ pollStep "job-1" { status := .completed, progress := 100, error := none }
        completedResponse { status := .completed, progress := 100, error := none } :=
  ⟨rfl, statusDisplay_completed_failed_sticky.2.2.2.2 "job-1" _ _ _ (Or.inl rfl)⟩

/-- C3 counterexample: `BatchResearchResult` (`lib/types.ts`,
`src/unnamed/part_004` lines 89-97) — the record the aggregate returns — has
only a completed bucket (`completed_topics`) and a failed bucket
(`failed_topics`); it has no `cancelled_count` nor any cancelled bucket, so
the aggregate does not partition the members into three outcome buckets with
`completed_count + failed_count + cancelled_count == N`. -/
theorem batchResult_no_cancelled_bucket :
    batchResultFields.contains "cancelled_count" = false ∧
    batchResultFields.contains "cancelled_topics" = false ∧
    batchResultFields.contains "completed_topics" = true ∧
    batchResultFields.contains "failed_topics" = true ∧
    batchResultFields = ["batch_id", "total_topics", "completed_topics",
      "failed_topics", "results", "overall_confidence", "processing_time_seconds"] :=
  ⟨rfl, rfl, rfl, rfl, rfl⟩

/-- C3 (amended): once all N members of a batch are terminal, the aggregate
partitions them into the two outcome buckets of the result type: with every
member `completed` or `failed` — the only terminal statuses of the code's
`JobStatus` — the completed count plus the failed count equals N. -/
theorem batchAggregate_two_counts_sum (members : List JobStatus)
    (h : ∀ s ∈ members, isTerminal s = true) :
    countStatus .completed members + countStatus .failed members = members.length := by
  induction members with
  | nil => rfl
  | cons hd tl ih =>
      have hhd : isTerminal hd = true := h hd (by simp)
      have ih' := ih (fun s hs => h s (by simp [hs]))
      simp only [countStatus] at ih' ⊢
      cases hd <;> simp [isTerminal] at hhd <;>
        simp [List.filter_cons] <;> omega

/-- C3 witness: a batch of three terminal members, two completed and one
failed. -/
theorem batchAggregate_two_counts_sum_witness :
    (([.completed, .completed, .failed] : List JobStatus).all isTerminal) = true ∧
    countStatus .completed [.completed, .completed, .failed] +
      countStatus .failed [.completed, .completed, .failed] = 3 := by
  refine ⟨rfl, batchAggregate_two_counts_sum [.completed, .completed, .failed] ?_⟩
  intro s hs
  fin_cases hs <;> rfl

end ResearchAgent

namespace ResearchAgent

/-- C6: entity-level failures surface as errors, never silent successes:
`handleApiResponse` resolves to the parsed JSON body exactly for `ok`
responses (and only when the body parses), and for every non-`ok` response it
throws an `ApiError` whose `status` equals the HTTP status code and whose
message follows the fallback chain `body.detail`, else `body.message`, else
the default `"API Error: <status> <statusText>"`; it never returns a value
for a non-`ok` response. -/
theorem handleApiResponse_error_dichotomy :
    ∀ r : HttpResponse,
      (∀ b, r.ok = true → r.jsonBody = some b → handleApiResponse r = .ok b) ∧
      ((∃ b, handleApiResponse r = .ok b) → r.ok = true) ∧
      (r.ok = false →
        ∃ e, handleApiResponse r = .error (.api e) ∧
          e.status = r.status ∧
          e.message = expectedErrorMessage r) := by
  intro r
  refine ⟨?_, ?_, ?_⟩
  · intro b hok hb
    simp [handleApiResponse, hok, hb]
  · rintro ⟨b, hb⟩
    cases hok : r.ok
    · exfalso
      rcases hj : r.jsonBody with _ | b2 <;>
        simp [handleApiResponse, hok, hj] at hb
    · rfl
  · intro hok
    rcases hj : r.jsonBody with _ | b
    · refine ⟨⟨apiDefaultMessage r, r.status, "UNKNOWN_ERROR"⟩, ?_, rfl, ?_⟩
      · simp [handleApiResponse, hok, hj]
      · simp [expectedErrorMessage, hj]
    · refine ⟨⟨jsOrStr b.detail (jsOrStr b.message (apiDefaultMessage r)), r.status,
          jsOrStr b.code "UNKNOWN_ERROR"⟩, ?_, rfl, ?_⟩
      · simp [handleApiResponse, hok, hj]
      · simp [expectedErrorMessage, hj]

/-- A concrete 404 response with a `detail` field (C6 witness input). -/
def notFoundResponse : HttpResponse :=
  { ok := false
    status := 404
    statusText := "Not Found"
    jsonBody := some { detail := some "Job not found", message := none, code := none } }

/-- C6 witness: a 404 response with `detail` set throws an `ApiError` with
status 404 whose message is the `detail` text. -/
theorem handleApiResponse_error_dichotomy_witness :
    notFoundResponse.ok = false ∧
    (∃ e, handleApiResponse notFoundResponse = .error (.api e) ∧
      e.status = notFoundResponse.status ∧
      e.message = expectedErrorMessage notFoundResponse) ∧
    expectedErrorMessage notFoundResponse = "Job not found" :=
  ⟨rfl, (handleApiResponse_error_dichotomy notFoundResponse).2.2 rfl, rfl⟩

/-- C9: the research-quality percentage of `ResearchProgress` is total and
bounded: it always lies in [0, 100], it is 0 when the references field is
absent or empty, and when at least one reference exists it equals 100 times
the number of references with confidence score above 0.8 divided by the total
number of references. -/
theorem progressPercentage_total_and_bounded :
    ∀ rd : ResearchResult,
      0 ≤ progressPercentage rd ∧ progressPercentage rd ≤ 100 ∧
      (rd.references = none → progressPercentage rd = 0) ∧
      (rd.references = some [] → progressPercentage rd = 0) ∧
      (0 < totalSources rd →
        progressPercentage rd =
          100 * (highConfidenceSources rd : ℚ) / (totalSources rd : ℚ)) := by
  intro rd
  have hle : highConfidenceSources rd ≤ totalSources rd := highConfidenceSources_le rd
  by_cases ht : 0 < totalSources rd
  · have htq : (0 : ℚ) < (totalSources rd : ℚ) := by exact_mod_cast ht
    have hfrac : (highConfidenceSources rd : ℚ) / (totalSources rd : ℚ) ≤ 1 :=
      (div_le_one htq).mpr (by exact_mod_cast hle)
    have hfrac0 : 0 ≤ (highConfidenceSources rd : ℚ) / (totalSources rd : ℚ) :=
      div_nonneg (by positivity) (le_of_lt htq)
    refine ⟨?_, ?_, ?_, ?_, ?_⟩
    · simp only [progressPercentage, if_pos ht]
      positivity
    · simp only [progressPercentage, if_pos ht]
      nlinarith
    · intro hnone
      simp [totalSources, hnone] at ht
    · intro hnil
      simp [totalSources, hnil] at ht
    · intro _
      simp only [progressPercentage, if_pos ht]
      ring
  · refine ⟨?_, ?_, fun _ => ?_, fun _ => ?_, fun hc => absurd hc ht⟩ <;>
      simp [progressPercentage, ht]

/-- A result with one high-confidence reference out of two (C9 witness
input). -/
def sampleResult : ResearchResult :=
  { references := some [{ confidence_score := some (9/10) }, { confidence_score := none }] }

/-- C9 witness: on a result with two references, one above 0.8, the
percentage equals the claimed ratio formula (and is 50). -/
theorem progressPercentage_total_and_bounded_witness :
    0 < totalSources sampleResult ∧
    progressPercentage sampleResult =
      100 * (highConfidenceSources sampleResult : ℚ) / (totalSources sampleResult : ℚ) ∧
    progressPercentage sampleResult = 50 := by
  have h1 : 0 < totalSources sampleResult := by norm_num [totalSources, sampleResult]
  refine ⟨h1, (progressPercentage_total_and_bounded sampleResult).2.2.2.2 h1, ?_⟩
  norm_num [progressPercentage, totalSources, highConfidenceSources, sampleResult,
    refConfidence, List.filter]

/-- C10: ending a live session is atomic on the client state: with no active
session `endSession` is a no-op; when `endLiveResearchSession` rejects, the
session, the WebSocket reference and the (absent) summary are all left
unchanged and no close happens; the WebSocket is closed only on a successful
result, in which case the summary is stored, the socket reference is cleared
and the session is cleared. -/
theorem endSession_atomic :
    ∀ (st : SessionComponentState) (r : Except ApiError LiveSummary),
      (∀ e, r = .error e → endSessionStep st r = (st, false)) ∧
      (st.session = none → endSessionStep st r = (st, false)) ∧
      ((endSessionStep st r).2 = true →
        (∃ sum, r = .ok sum) ∧ st.wsConnected = true ∧ st.session ≠ none) ∧
      (∀ sum, r = .ok sum → st.session ≠ none →
        endSessionStep st r =
          ({ session := none, wsConnected := false, summary := some sum },
           st.wsConnected)) := by
  intro st r
  obtain ⟨so, ws, sm⟩ := st
  rcases so with _ | sess
  · refine ⟨?_, ?_, ?_, ?_⟩
    · intro e he
      rfl
    · intro _
      rfl
    · intro hclose
      simp [endSessionStep] at hclose
    · intro sum hr hne
      exact absurd rfl hne
  · refine ⟨?_, ?_, ?_, ?_⟩
    · intro e he
      subst he
      rfl
    · intro hn
      simp at hn
    · intro hclose
      rcases r with e | sum
      · simp [endSessionStep] at hclose
      · refine ⟨⟨sum, rfl⟩, ?_, by simp⟩
        simpa [endSessionStep] using hclose
    · intro sum hr hne
      subst hr
      rfl

/-- An open session with a connected WebSocket (C10 witness input). -/
def openSessionState : SessionComponentState :=
  { session := some
      { session_id := "sess-1"
        topic := "quantum computing"
        status := .active
        started_at := "2025-01-01T00:00:00Z"
        modalities := ["TEXT", "AUDIO"]
        participants := none }
    wsConnected := true
    summary := none }

/-- A sample API error (C10 witness input). -/
def sampleApiError : ApiError :=
  { message := "boom", status := 500, code := "UNKNOWN_ERROR" }

/-- C10 witness: when ending the open session rejects, the component state is
unchanged and the WebSocket is not closed. -/
theorem endSession_atomic_witness :
    endSessionStep openSessionState (.error sampleApiError) = (openSessionState, false) :=
  (endSession_atomic openSessionState (.error sampleApiError)).1 sampleApiError rfl

end ResearchAgent

namespace ResearchAgent

/-- A batch status response reporting completion (C5 witness input). -/
def completedBatchResponse : BatchStatusResponse :=
  { batch_id := "batch-1"
    status := "completed"
    progress := 1
    completed_topics := ["A", "B"]
    failed_topics := [] }

/-- A batch status response still in progress (C5 witness input). -/
def inProgressBatchResponse : BatchStatusResponse :=
  { batch_id := "batch-1"
    status := "in_progress"
    progress := 1/2
    completed_topics := ["A"]
    failed_topics := [] }

/-- C5 witness: a tick whose status response reports `"completed"` issues the
results fetch, and a tick reporting `"in_progress"` issues only the status
poll. -/
theorem batchResults_only_after_completed_witness :
    BatchAction.resultsFetch ∈ pollStatusActions completedBatchResponse ∧
    pollStatusActions inProgressBatchResponse = [BatchAction.statusPoll] :=
  ⟨(batchResults_only_after_completed completedBatchResponse).2.1.mpr rfl, rfl⟩

end ResearchAgent
